import Mathlib

/-!
Shallow embedding of the nightwatch guild API (TypeScript) in Lean 4.

The repository consists of an Express controller layer (`GuildController`),
a service layer (`GuildService`, not part of the provided sources), entity
declarations (`GuildUserWarning`, `GuildUserKick`, `Referral`), a bot-side
`UserController` and an `AuthenticationService`.

Controller endpoints are embedded as pure functions.  A call into the
service layer whose implementation is not in the sources is passed in as an
`Except ServiceError _` outcome (the controller `await`s it: on `error` the
exception propagates and nothing after the `await` runs); service
operations whose behaviour the claims depend on and whose code is absent
are modelled from the spec and marked as such in their doc comments.
Socket notifications (`socketService.send(event, payload)`) are collected
into an explicit event list.
-/

set_option linter.unusedVariables false

abbrev GuildId := String
abbrev UserId := String
abbrev RoleId := String
abbrev ServiceError := String

/-- Modelled from the spec (section 3), the `Guild` entity sources being absent
from the provided files: a Guild is identified by a platform-assigned opaque
string id; child collections are kept in separate stores below. -/
structure Guild where
  id : GuildId
deriving DecidableEq, Repr

/-- Modelled from the spec (section 3): a guild-scoped suggestion with auto id,
content, status and author. -/
structure GuildSuggestion where
  id : Nat
  content : String
  status : String
  author : UserId
deriving DecidableEq, Repr

/-- Modelled from the spec (section 3): a guild-scoped support ticket with auto
id, content and status. -/
structure GuildSupportTicket where
  id : Nat
  content : String
  status : String
deriving DecidableEq, Repr

/-- Modelled from the spec (section 3): the settings row owned 1:1 by a guild. -/
structure GuildSettings where
  guildId : GuildId
deriving DecidableEq, Repr

/-- Modelled from the spec (section 3): a guild-scoped user row, keyed by
(guild, platform user id). -/
structure GuildUser where
  id : UserId
  guildId : GuildId
deriving DecidableEq, Repr

/-- Modelled from the spec (section 3): a playlist entry owned by a guild and
attributed to the requesting user. -/
structure Song where
  id : Nat
  guildId : GuildId
  requestedBy : UserId
  position : Nat
deriving DecidableEq, Repr

/-- A self-assignable role body as received by the controller: it carries the
platform role id (`selfAssignableRole.roleId` in the source). -/
structure GuildSelfAssignableRole where
  roleId : RoleId
deriving DecidableEq, Repr

/-- A socket notification: the event name constant together with the payload
passed to `socketService.send`.  Constructor names follow the event constants
imported by the controller (`GuildEvent.GUILD_CREATE`, ...); delete events for
children carry the composite key object built at the call site. -/
inductive SocketEvent
  | GUILD_CREATE (guild : Guild)
  | GUILD_UPDATE (guild : Guild)
  | GUILD_DELETE (id : GuildId)
  | GUILD_SUGGESTION_CREATE (s : GuildSuggestion)
  | GUILD_SUGGESTION_UPDATE (s : GuildSuggestion)
  | GUILD_SUGGESTION_DELETE (guildId : GuildId) (suggestionId : Nat)
  | GUILD_SUPPORT_TICKET_CREATE (t : GuildSupportTicket)
  | GUILD_SUPPORT_TICKET_UPDATE (t : GuildSupportTicket)
  | GUILD_SUPPORT_TICKET_DELETE (guildId : GuildId) (ticketId : Nat)
  | GUILD_SETTINGS_UPDATE (s : GuildSettings)
  | GUILD_USER_CREATE (u : GuildUser)
  | GUILD_USER_UPDATE (u : GuildUser)
  | GUILD_USER_DELETE (guildId : GuildId) (userId : UserId)
deriving DecidableEq, Repr

/-- POST / — `create`: awaits `guildService.create(guild)`, then sends
`GUILD_CREATE` with the request body.  If the awaited call throws, the send is
never reached. -/
def GuildController.create (guild : Guild) (svc : Except ServiceError Unit) :
    Except ServiceError Unit × List SocketEvent :=
  match svc with
  | Except.error e => (Except.error e, [])
  | Except.ok _ => (Except.ok (), [SocketEvent.GUILD_CREATE guild])

/-- DELETE /:id — `deleteById`: awaits `guildService.delete(id)`, then sends
`GUILD_DELETE` with the id. -/
def GuildController.deleteById (id : GuildId) (svc : Except ServiceError Unit) :
    Except ServiceError Unit × List SocketEvent :=
  match svc with
  | Except.error e => (Except.error e, [])
  | Except.ok _ => (Except.ok (), [SocketEvent.GUILD_DELETE id])

/-- PUT /:id — `updateById`: awaits `guildService.update(id, guild)`, then
sends `GUILD_UPDATE` with the request body. -/
def GuildController.updateById (id : GuildId) (guild : Guild)
    (svc : Except ServiceError Unit) :
    Except ServiceError Unit × List SocketEvent :=
  match svc with
  | Except.error e => (Except.error e, [])
  | Except.ok _ => (Except.ok (), [SocketEvent.GUILD_UPDATE guild])

/-- POST /:id/suggestions — `createSuggestion`: awaits
`guildService.createSuggestion(id, suggestion)`, sends
`GUILD_SUGGESTION_CREATE` with the request body, and returns the service
result (`ticket`). -/
def GuildController.createSuggestion (id : GuildId) (suggestion : GuildSuggestion)
    (svc : Except ServiceError GuildSuggestion) :
    Except ServiceError GuildSuggestion × List SocketEvent :=
  match svc with
  | Except.error e => (Except.error e, [])
  | Except.ok ticket =>
      (Except.ok ticket, [SocketEvent.GUILD_SUGGESTION_CREATE suggestion])

/-- PUT /:id/suggestions/:suggestionId — `updateSuggestionById`. -/
def GuildController.updateSuggestionById (id : GuildId) (suggestionId : Nat)
    (suggestion : GuildSuggestion) (svc : Except ServiceError Unit) :
    Except ServiceError Unit × List SocketEvent :=
  match svc with
  | Except.error e => (Except.error e, [])
  | Except.ok _ =>
      (Except.ok (), [SocketEvent.GUILD_SUGGESTION_UPDATE suggestion])

/-- DELETE /:id/suggestions/:suggestionId — `deleteSuggestionById`: on success
sends `GUILD_SUGGESTION_DELETE` with the composite key object. -/
def GuildController.deleteSuggestionById (id : GuildId) (suggestionId : Nat)
    (svc : Except ServiceError Unit) :
    Except ServiceError Unit × List SocketEvent :=
  match svc with
  | Except.error e => (Except.error e, [])
  | Except.ok _ =>
      (Except.ok (), [SocketEvent.GUILD_SUGGESTION_DELETE id suggestionId])

/-- POST /:id/support-tickets — `createSupportTicket`. -/
def GuildController.createSupportTicket (id : GuildId)
    (supportTicket : GuildSupportTicket)
    (svc : Except ServiceError GuildSupportTicket) :
    Except ServiceError GuildSupportTicket × List SocketEvent :=
  match svc with
  | Except.error e => (Except.error e, [])
  | Except.ok ticket =>
      (Except.ok ticket, [SocketEvent.GUILD_SUPPORT_TICKET_CREATE supportTicket])

/-- PUT /:id/support-tickets/:ticketId — `updateSupportTicketById`. -/
def GuildController.updateSupportTicketById (id : GuildId) (ticketId : Nat)
    (supportTicket : GuildSupportTicket) (svc : Except ServiceError Unit) :
    Except ServiceError Unit × List SocketEvent :=
  match svc with
  | Except.error e => (Except.error e, [])
  | Except.ok _ =>
      (Except.ok (), [SocketEvent.GUILD_SUPPORT_TICKET_UPDATE supportTicket])

/-- DELETE /:id/support-tickets/:ticketId — `deleteSupportTicketById`. -/
def GuildController.deleteSupportTicketById (id : GuildId) (ticketId : Nat)
    (svc : Except ServiceError Unit) :
    Except ServiceError Unit × List SocketEvent :=
  match svc with
  | Except.error e => (Except.error e, [])
  | Except.ok _ =>
      (Except.ok (), [SocketEvent.GUILD_SUPPORT_TICKET_DELETE id ticketId])

/-- PUT /:id/settings — `updateSettingsById`. -/
def GuildController.updateSettingsById (id : GuildId) (settings : GuildSettings)
    (svc : Except ServiceError Unit) :
    Except ServiceError Unit × List SocketEvent :=
  match svc with
  | Except.error e => (Except.error e, [])
  | Except.ok _ => (Except.ok (), [SocketEvent.GUILD_SETTINGS_UPDATE settings])

/-- POST /:id/users — `createUser`. -/
def GuildController.createUser (id : GuildId) (user : GuildUser)
    (svc : Except ServiceError Unit) :
    Except ServiceError Unit × List SocketEvent :=
  match svc with
  | Except.error e => (Except.error e, [])
  | Except.ok _ => (Except.ok (), [SocketEvent.GUILD_USER_CREATE user])

/-- PUT /:id/users/:userId — `updateUserById`. -/
def GuildController.updateUserById (id : GuildId) (userId : UserId)
    (user : GuildUser) (svc : Except ServiceError Unit) :
    Except ServiceError Unit × List SocketEvent :=
  match svc with
  | Except.error e => (Except.error e, [])
  | Except.ok _ => (Except.ok (), [SocketEvent.GUILD_USER_UPDATE user])

/-- DELETE /:id/users/:userId — `deleteUserById`: on success sends
`GUILD_USER_DELETE` with the composite key object. -/
def GuildController.deleteUserById (id : GuildId) (userId : UserId)
    (svc : Except ServiceError Unit) :
    Except ServiceError Unit × List SocketEvent :=
  match svc with
  | Except.error e => (Except.error e, [])
  | Except.ok _ => (Except.ok (), [SocketEvent.GUILD_USER_DELETE id userId])

/-- DELETE /:id/self-assignable-roles/:roleId — `deleteSelfAssignableRole`:
awaits the service call and returns; the source contains no
`socketService.send` for this endpoint. -/
def GuildController.deleteSelfAssignableRole (id : GuildId) (roleId : RoleId)
    (svc : Except ServiceError Unit) :
    Except ServiceError Unit × List SocketEvent :=
  match svc with
  | Except.error e => (Except.error e, [])
  | Except.ok _ => (Except.ok (), [])

/-- POST /:id/playlist — `createSong`: returns the service result directly;
the source contains no `socketService.send` for this endpoint. -/
def GuildController.createSong (id : GuildId) (song : Song)
    (svc : Except ServiceError Song) :
    Except ServiceError Song × List SocketEvent :=
  match svc with
  | Except.error e => (Except.error e, [])
  | Except.ok s => (Except.ok s, [])

/-- DELETE /:id/playlist — `clearPlaylist`: returns the service result; no
notification in the source. -/
def GuildController.clearPlaylist (id : GuildId)
    (svc : Except ServiceError Unit) :
    Except ServiceError Unit × List SocketEvent :=
  match svc with
  | Except.error e => (Except.error e, [])
  | Except.ok _ => (Except.ok (), [])

/-- DELETE /:id/playlist/:songId — `deleteSongById`: returns the service
result; no notification in the source. -/
def GuildController.deleteSongById (id : GuildId) (songId : Nat)
    (svc : Except ServiceError Unit) :
    Except ServiceError Unit × List SocketEvent :=
  match svc with
  | Except.error e => (Except.error e, [])
  | Except.ok _ => (Except.ok (), [])

/-- The self-assignable-role table: rows keyed by (guild id, role id). -/
abbrev RoleStore := List (GuildId × RoleId)

/-- Modelled from the spec: `GuildService.findSelfAssignableRole` is not in
the provided sources; per the spec it returns the stored self-assignable role
for `(guildId, roleId)` when one exists. -/
def GuildService.findSelfAssignableRole (store : RoleStore) (id : GuildId)
    (roleId : RoleId) : Option (GuildId × RoleId) :=
  store.find? (fun row => row.1 == id && row.2 == roleId)

/-- Modelled from the spec: `GuildService.createSelfAssignableRole` is not in
the provided sources; per the spec it inserts the `(guild, roleId)` row. -/
def GuildService.createSelfAssignableRole (store : RoleStore) (id : GuildId)
    (r : GuildSelfAssignableRole) : RoleStore :=
  (id, r.roleId) :: store

/-- Status a controller endpoint may send explicitly on the response object. -/
inductive SentStatus
  | conflict409
  | notFound404
deriving DecidableEq, Repr

/-- Outcome of the `createSelfAssignableRole` endpoint: the explicitly sent
status (if any), the role table after the call, and the socket events sent. -/
structure RoleCreateOutcome where
  sent : Option SentStatus
  store : RoleStore
  events : List SocketEvent
deriving DecidableEq, Repr

/-- POST /:id/self-assignable-roles — `createSelfAssignableRole`: first looks
up an existing role with the same `roleId` under the guild (through
`findSelfAssignableRole`, which delegates to the service); if one is found it
sends 409 and returns without calling the service's create; otherwise it
returns the service's create.  The source contains no `socketService.send`
on either path. -/
def GuildController.createSelfAssignableRole (store : RoleStore) (id : GuildId)
    (selfAssignableRole : GuildSelfAssignableRole) : RoleCreateOutcome :=
  match GuildService.findSelfAssignableRole store id selfAssignableRole.roleId with
  | some _ => { sent := some SentStatus.conflict409, store := store, events := [] }
  | none =>
      { sent := none
        store := GuildService.createSelfAssignableRole store id selfAssignableRole
        events := [] }

/-- Number of rows in the role table with the given (guild, roleId) key. -/
def countRole (store : RoleStore) (id : GuildId) (roleId : RoleId) : Nat :=
  (store.filter (fun row => row.1 == id && row.2 == roleId)).length

/-- Modelled from the spec: `GuildService.findById` is not in the provided
sources; per the spec it returns the full Guild or "not found" and never
throws. -/
def GuildService.findById (db : List Guild) (id : GuildId) : Option Guild :=
  db.find? (fun g => g.id == id)

/-- Response state of the `findById` endpoint: the status explicitly sent via
`res.sendStatus` (if any) and the returned body. -/
structure FindByIdOutcome where
  sent : Option SentStatus
  body : Option Guild
deriving DecidableEq, Repr

/-- GET /:id — `findById`: awaits `guildService.findById(id)`; when the result
is absent, sends 404; in both cases returns the (possibly absent) guild. -/
def GuildController.findById (db : List Guild) (id : GuildId) : FindByIdOutcome :=
  let guild := GuildService.findById db id
  { sent := if guild.isNone then some SentStatus.notFound404 else none
    body := guild }

/-- Modelled from the spec: `GuildService.deleteSongsByUserId` is not in the
provided sources; per the spec it removes, in one logical operation, all Songs
in guild `g` with `requestedBy == userId`. -/
def GuildService.deleteSongsByUserId (songs : List Song) (id : GuildId)
    (userId : UserId) : List Song :=
  songs.filter (fun s => !(s.guildId == id && s.requestedBy == userId))

/-- DELETE /:id/playlist/user/:userId — `deleteSongsByUserId`: delegates to
the service and returns its result; no notification in the source. -/
def GuildController.deleteSongsByUserId (songs : List Song) (id : GuildId)
    (userId : UserId) : List Song × List SocketEvent :=
  (GuildService.deleteSongsByUserId songs id userId, [])

/-- A stored GuildUserWarning row (`src/db/entity/guild/guild-user-warning.ts`):
auto id, issuer and user are join columns referencing GuildUser rows. -/
structure GuildUserWarningRow where
  id : Nat
  issuer : Nat
  reason : String
  timestamp : Nat
  user : Nat
deriving DecidableEq, Repr

/-- A stored GuildUserKick row (same shape as GuildUserWarning). -/
structure GuildUserKickRow where
  id : Nat
  issuer : Nat
  reason : String
  timestamp : Nat
  user : Nat
deriving DecidableEq, Repr

/-- Storage admissibility of a GuildUserWarning table state under the indexes
declared in the entity source: the only unique index is
`@Index(\x7b unique: true \x7d)` on the `user` join column, so no two rows may
share the same `user` value. -/
def guildUserWarningAdmissible (rows : List GuildUserWarningRow) : Prop :=
  (rows.map (fun r => r.user)).Nodup

/-- Storage admissibility of a GuildUserKick table state under the indexes
declared in the entity source: the only unique index is on the `user` join
column. -/
def guildUserKickAdmissible (rows : List GuildUserKickRow) : Prop :=
  (rows.map (fun r => r.user)).Nodup

/-- The uniqueness constraint as the claim states it (for comparison with the
one declared in the source): unique on the (issuer, target-user) pair. -/
def guildUserWarningPairAdmissible (rows : List GuildUserWarningRow) : Prop :=
  (rows.map (fun r => (r.issuer, r.user))).Nodup

instance (rows : List GuildUserWarningRow) :
    Decidable (guildUserWarningAdmissible rows) := by
  unfold guildUserWarningAdmissible; infer_instance

instance (rows : List GuildUserKickRow) :
    Decidable (guildUserKickAdmissible rows) := by
  unfold guildUserKickAdmissible; infer_instance

instance (rows : List GuildUserWarningRow) :
    Decidable (guildUserWarningPairAdmissible rows) := by
  unfold guildUserWarningPairAdmissible; infer_instance

/-- The runtime field state of a GuildUserWarning instance: each declared
field is either set or still `undefined` (modelled as `Option`). -/
structure GuildUserWarningObj where
  id : Option Nat
  issuer : Option Nat
  reason : Option String
  timestamp : Option Nat
  user : Option Nat
deriving DecidableEq, Repr

/-- A fresh instance before any field assignment: every field `undefined`. -/
def GuildUserWarningObj.empty : GuildUserWarningObj :=
  { id := none, issuer := none, reason := none, timestamp := none, user := none }

/-- The GuildUserWarning constructor: when a snapshot is supplied,
`Object.assign(this, guildUserWarning)` copies all of its fields; otherwise
every field stays `undefined`. -/
def GuildUserWarning.construct (guildUserWarning : Option GuildUserWarningObj) :
    GuildUserWarningObj :=
  match guildUserWarning with
  | some s => s
  | none => GuildUserWarningObj.empty

/-- The runtime field state of a GuildUserKick instance. -/
structure GuildUserKickObj where
  id : Option Nat
  issuer : Option Nat
  reason : Option String
  timestamp : Option Nat
  user : Option Nat
deriving DecidableEq, Repr

/-- A fresh GuildUserKick instance: every field `undefined`. -/
def GuildUserKickObj.empty : GuildUserKickObj :=
  { id := none, issuer := none, reason := none, timestamp := none, user := none }

/-- The GuildUserKick constructor: when a snapshot is supplied,
`Object.assign(this, guildUserKick)` copies all of its fields. -/
def GuildUserKick.construct (guildUserKick : Option GuildUserKickObj) :
    GuildUserKickObj :=
  match guildUserKick with
  | some s => s
  | none => GuildUserKickObj.empty

/-- The runtime field state of a Referral instance; dates are modelled as
naturals (milliseconds since the epoch). -/
structure ReferralObj where
  dateCreated : Option Nat
  guildId : Option GuildId
  id : Option Nat
  inviteUrl : Option String
  joinCount : Option Nat
  userId : Option UserId
deriving DecidableEq, Repr

/-- A fresh Referral instance: every field `undefined`. -/
def ReferralObj.empty : ReferralObj :=
  { dateCreated := none, guildId := none, id := none, inviteUrl := none
    joinCount := none, userId := none }

/-- The Referral constructor: when a snapshot is supplied,
`Object.assign(this, referral)` copies all of its fields; then, on every path,
`this.dateCreated = new Date()` runs (the current time is passed in as
`now`). -/
def Referral.construct (referral : Option ReferralObj) (now : Nat) : ReferralObj :=
  let base :=
    match referral with
    | some s => s
    | none => ReferralObj.empty
  { base with dateCreated := some now }

/-- The `premium` block of the bot configuration; both fields are optional
strings in the config shape (`undefined` modelled as `none`). -/
structure PremiumConfig where
  premiumPatreonRoleId : Option String
  primaryGuildId : Option String
deriving DecidableEq, Repr

/-- The `config.optional` object as read by the bot `UserController`. -/
structure BotOptionalConfig where
  premium : Option PremiumConfig
deriving DecidableEq, Repr

/-- JavaScript falsiness of an optional string: `undefined` and the empty
string are falsy, any other string is truthy. -/
def strFalsy : Option String → Bool
  | none => true
  | some s => s == ""

/-- A cached guild member: the set of role ids the member holds
(`member.roles`). -/
structure Member where
  roles : List String
deriving DecidableEq, Repr

/-- A guild in the client cache: its member map keyed by user id. -/
structure CachedGuild where
  members : List (UserId × Member)
deriving DecidableEq, Repr

/-- The discord client as used by `userHasPremium`: the guild cache
(`client.guilds`) and the owner list consulted by `client.isOwner`. -/
structure Client where
  guilds : List (String × CachedGuild)
  owners : List UserId
deriving DecidableEq, Repr

/-- Lookup `client.guilds.get(gid)`. -/
def Client.getGuild (client : Client) (gid : String) : Option CachedGuild :=
  (client.guilds.find? (fun p => p.1 == gid)).map (fun p => p.2)

/-- Lookup `guild.members.get(uid)`. -/
def CachedGuild.getMember (guild : CachedGuild) (uid : UserId) : Option Member :=
  (guild.members.find? (fun p => p.1 == uid)).map (fun p => p.2)

/-- Check `client.isOwner(id)`. -/
def Client.isOwner (client : Client) (uid : UserId) : Bool :=
  client.owners.contains uid

/-- The check `UserController.userHasPremium` (`src/bot/controllers/user.ts`): returns
false when the premium config block or either of its two ids is falsy, when
the primary guild is not in the client cache, or when `id` is not one of its
members; then the bot-owner check short-circuits to true; otherwise the result
is whether the member holds the premium role. -/
def UserController.userHasPremium (config : BotOptionalConfig) (id : UserId)
    (client : Client) : Bool :=
  match config.premium with
  | none => false
  | some premium =>
      if strFalsy premium.premiumPatreonRoleId ||
          strFalsy premium.primaryGuildId then false
      else
        match client.getGuild (premium.primaryGuildId.getD "") with
        | none => false
        | some guild =>
            match guild.getMember id with
            | none => false
            | some member =>
                if client.isOwner id then true
                else member.roles.contains (premium.premiumPatreonRoleId.getD "")

/-- The base64 alphabet used by `Buffer.toString('base64')`. -/
def b64Alphabet : List Char :=
  "ABCDEFGHIJKLMNOPQRSTUVWXYZabcdefghijklmnopqrstuvwxyz0123456789+/".toList

/-- The base64 digit for a sextet value. -/
def b64Char (n : Nat) : Char :=
  b64Alphabet.getD n 'A'

/-- Standard base64 of a byte list, with `=` padding. -/
def b64EncodeBytes : List Nat → List Char
  | [] => []
  | [b1] => [b64Char (b1 / 4), b64Char (b1 % 4 * 16), '=', '=']
  | [b1, b2] =>
      [b64Char (b1 / 4), b64Char (b1 % 4 * 16 + b2 / 16),
        b64Char (b2 % 16 * 4), '=']
  | b1 :: b2 :: b3 :: rest =>
      b64Char (b1 / 4) :: b64Char (b1 % 4 * 16 + b2 / 16) ::
        b64Char (b2 % 16 * 4 + b3 / 64) :: b64Char (b3 % 64) ::
        b64EncodeBytes rest

/-- Encoding `Buffer.from(s).toString('base64')` for the ASCII strings this module
feeds it (code points below 128 coincide with their UTF-8 bytes). -/
def base64 (s : String) : String :=
  String.mk (b64EncodeBytes (s.toList.map Char.toNat))

/-- The `bot` block of `config.json` as destructured by the authentication
module. -/
structure BotConfig where
  clientId : String
  clientSecret : String
deriving DecidableEq, Repr

/-- An assignment to a `const` binding: at runtime JavaScript raises
`TypeError: Assignment to constant variable.` on every such assignment, so
this never produces a value. -/
def constReassign (current : String) (newValue : String) : Except String String :=
  Except.error "TypeError: Assignment to constant variable."

/-- Module load of `authentication.ts`: `const clientSecret = ''` and
`const clientId = ''`; the try block requires `config.json` (which may itself
fail) and then reassigns both const bindings; the catch logs the error.  The
resulting module-level values are returned as (clientId, clientSecret). -/
def loadAuthCredentials (configJson : Option BotConfig) : String × String :=
  let clientSecret := ""
  let clientId := ""
  let tryOutcome : Except String (String × String) :=
    match configJson with
    | none => Except.error "Cannot find module config.json"
    | some config => do
        let s ← constReassign clientSecret config.clientSecret
        let i ← constReassign clientId config.clientId
        pure (i, s)
  match tryOutcome with
  | Except.ok creds => creds
  | Except.error _ => (clientId, clientSecret)

/-- The outgoing token request built by `getDiscordAccessToken`: the URL and
the Authorization header. -/
structure AuthRequest where
  url : String
  authorizationHeader : String
deriving DecidableEq, Repr

/-- The request `AuthenticationService.getDiscordAccessToken` builds:
`Basic base64(clientId + ':' + clientSecret)` from the module-level
credentials and posts to the OAuth token endpoint. -/
def AuthenticationService.getDiscordAccessToken (configJson : Option BotConfig)
    (code : String) (redirect : String) : AuthRequest :=
  let credentials := loadAuthCredentials configJson
  let creds := base64 (credentials.1 ++ ":" ++ credentials.2)
  { url :=
      "https://discordapp.com/api/oauth2/token?grant_type=authorization_code&code="
        ++ code ++ "&redirect_uri=" ++ redirect
    authorizationHeader := "Basic " ++ creds }

/-- When no row with the (guild, roleId) key is stored, the service lookup
reports absence. -/
theorem countRole_zero_find_none (store : RoleStore) (g : GuildId) (rid : RoleId)
    (h : countRole store g rid = 0) :
    GuildService.findSelfAssignableRole store g rid = none := by
  unfold countRole at h
  rw [List.length_eq_zero, List.filter_eq_nil_iff] at h
  unfold GuildService.findSelfAssignableRole
  rw [List.find?_eq_none]
  exact h

/-- C3: for every controller mutation endpoint that notifies, if the awaited
Service call throws, the `socketService.send` after the `await` is never
reached and no event is emitted; since the success branch is the only other
branch, an event is emitted only after the Service call resolved
successfully. -/
theorem guildController_no_event_without_commit :
    ∀ (g : Guild) (gid : GuildId) (uid : UserId) (n : Nat)
      (sg : GuildSuggestion) (tk : GuildSupportTicket) (st : GuildSettings)
      (u : GuildUser) (e : ServiceError),
      (GuildController.create g (Except.error e)).2 = [] ∧
      (GuildController.deleteById gid (Except.error e)).2 = [] ∧
      (GuildController.updateById gid g (Except.error e)).2 = [] ∧
      (GuildController.createSuggestion gid sg (Except.error e)).2 = [] ∧
      (GuildController.updateSuggestionById gid n sg (Except.error e)).2 = [] ∧
      (GuildController.deleteSuggestionById gid n (Except.error e)).2 = [] ∧
      (GuildController.createSupportTicket gid tk (Except.error e)).2 = [] ∧
      (GuildController.updateSupportTicketById gid n tk (Except.error e)).2 = [] ∧
      (GuildController.deleteSupportTicketById gid n (Except.error e)).2 = [] ∧
      (GuildController.updateSettingsById gid st (Except.error e)).2 = [] ∧
      (GuildController.createUser gid u (Except.error e)).2 = [] ∧
      (GuildController.updateUserById gid uid u (Except.error e)).2 = [] ∧
      (GuildController.deleteUserById gid uid (Except.error e)).2 = [] := by
  intros
  refine ⟨rfl, rfl, rfl, rfl, rfl, rfl, rfl, rfl, rfl, rfl, rfl, rfl, rfl⟩

/-- A concrete song used as counterexample input. -/
def song0 : Song :=
  { id := 1, guildId := "g1", requestedBy := "u1", position := 0 }

/-- C2 counterexample: the `createSong` endpoint succeeds — the Service call
committed and its result is returned to the caller — yet the controller emits
zero notification events for it, not exactly one. -/
theorem createSong_success_emits_no_event :
    (GuildController.createSong "g1" song0 (Except.ok song0)).1 = Except.ok song0 ∧
    (GuildController.createSong "g1" song0 (Except.ok song0)).2 = [] ∧
    ¬ (GuildController.createSong "g1" song0 (Except.ok song0)).2.length = 1 := by
  refine ⟨rfl, rfl, by decide⟩

/-- C2 amended: guild, suggestion, support-ticket, settings and user mutations
emit exactly one event on success — with the payload the controller passes to
`socketService.send` (the request entity for creates/updates, the id or
composite key for deletes) — and zero events when the Service call throws;
self-assignable-role and playlist mutations emit zero events in every case. -/
theorem guildController_notification_discipline :
    ∀ (g : Guild) (gid : GuildId) (uid : UserId) (n : Nat)
      (sg : GuildSuggestion) (tk : GuildSupportTicket) (st : GuildSettings)
      (u : GuildUser) (r : GuildSelfAssignableRole) (s : Song)
      (store : RoleStore) (songs : List Song) (rid : RoleId)
      (x : GuildSuggestion) (y : GuildSupportTicket) (z : Song)
      (e : ServiceError),
      (GuildController.create g (Except.ok ())).2 = [SocketEvent.GUILD_CREATE g] ∧
      (GuildController.deleteById gid (Except.ok ())).2 = [SocketEvent.GUILD_DELETE gid] ∧
      (GuildController.updateById gid g (Except.ok ())).2 = [SocketEvent.GUILD_UPDATE g] ∧
      (GuildController.createSuggestion gid sg (Except.ok x)).2 =
        [SocketEvent.GUILD_SUGGESTION_CREATE sg] ∧
      (GuildController.updateSuggestionById gid n sg (Except.ok ())).2 =
        [SocketEvent.GUILD_SUGGESTION_UPDATE sg] ∧
      (GuildController.deleteSuggestionById gid n (Except.ok ())).2 =
        [SocketEvent.GUILD_SUGGESTION_DELETE gid n] ∧
      (GuildController.createSupportTicket gid tk (Except.ok y)).2 =
        [SocketEvent.GUILD_SUPPORT_TICKET_CREATE tk] ∧
      (GuildController.updateSupportTicketById gid n tk (Except.ok ())).2 =
        [SocketEvent.GUILD_SUPPORT_TICKET_UPDATE tk] ∧
      (GuildController.deleteSupportTicketById gid n (Except.ok ())).2 =
        [SocketEvent.GUILD_SUPPORT_TICKET_DELETE gid n] ∧
      (GuildController.updateSettingsById gid st (Except.ok ())).2 =
        [SocketEvent.GUILD_SETTINGS_UPDATE st] ∧
      (GuildController.createUser gid u (Except.ok ())).2 =
        [SocketEvent.GUILD_USER_CREATE u] ∧
      (GuildController.updateUserById gid uid u (Except.ok ())).2 =
        [SocketEvent.GUILD_USER_UPDATE u] ∧
      (GuildController.deleteUserById gid uid (Except.ok ())).2 =
        [SocketEvent.GUILD_USER_DELETE gid uid] ∧
      (GuildController.create g (Except.error e)).2 = [] ∧
      (GuildController.deleteById gid (Except.error e)).2 = [] ∧
      (GuildController.updateById gid g (Except.error e)).2 = [] ∧
      (GuildController.createSuggestion gid sg (Except.error e)).2 = [] ∧
      (GuildController.updateSuggestionById gid n sg (Except.error e)).2 = [] ∧
      (GuildController.deleteSuggestionById gid n (Except.error e)).2 = [] ∧
      (GuildController.createSupportTicket gid tk (Except.error e)).2 = [] ∧
      (GuildController.updateSupportTicketById gid n tk (Except.error e)).2 = [] ∧
      (GuildController.deleteSupportTicketById gid n (Except.error e)).2 = [] ∧
      (GuildController.updateSettingsById gid st (Except.error e)).2 = [] ∧
      (GuildController.createUser gid u (Except.error e)).2 = [] ∧
      (GuildController.updateUserById gid uid u (Except.error e)).2 = [] ∧
      (GuildController.deleteUserById gid uid (Except.error e)).2 = [] ∧
      (GuildController.createSelfAssignableRole store gid r).events = [] ∧
      (GuildController.deleteSelfAssignableRole gid rid (Except.ok ())).2 = [] ∧
      (GuildController.deleteSelfAssignableRole gid rid (Except.error e)).2 = [] ∧
      (GuildController.createSong gid s (Except.ok z)).2 = [] ∧
      (GuildController.createSong gid s (Except.error e)).2 = [] ∧
      (GuildController.clearPlaylist gid (Except.ok ())).2 = [] ∧
      (GuildController.clearPlaylist gid (Except.error e)).2 = [] ∧
      (GuildController.deleteSongsByUserId songs gid uid).2 = [] ∧
      (GuildController.deleteSongById gid n (Except.ok ())).2 = [] ∧
      (GuildController.deleteSongById gid n (Except.error e)).2 = [] := by
  intro g gid uid n sg tk st u r s store songs rid x y z e
  refine ⟨rfl, rfl, rfl, rfl, rfl, rfl, rfl, rfl, rfl, rfl, rfl, rfl, rfl,
    rfl, rfl, rfl, rfl, rfl, rfl, rfl, rfl, rfl, rfl, rfl, rfl, rfl,
    ?_, rfl, rfl, rfl, rfl, rfl, rfl, rfl, rfl, rfl⟩
  unfold GuildController.createSelfAssignableRole
  cases GuildService.findSelfAssignableRole store gid r.roleId <;> rfl

/-- C1: the endpoint first looks up an existing role with the same roleId
under the guild: when one exists it sends 409 and returns with storage
unchanged (the service create is never invoked).  Starting from a state with
no row for the key, issuing the same creation twice leaves exactly one stored
row for the key, the first call sends no error status, and the second call
sends 409 without changing storage. -/
theorem createSelfAssignableRole_idempotent_reject (store : RoleStore)
    (g : GuildId) (r : GuildSelfAssignableRole) :
    ((GuildService.findSelfAssignableRole store g r.roleId).isSome →
      GuildController.createSelfAssignableRole store g r =
        { sent := some SentStatus.conflict409, store := store, events := [] }) ∧
    (countRole store g r.roleId = 0 →
      (GuildController.createSelfAssignableRole store g r).sent = none ∧
      countRole (GuildController.createSelfAssignableRole store g r).store g r.roleId = 1 ∧
      (GuildController.createSelfAssignableRole
          (GuildController.createSelfAssignableRole store g r).store g r).sent =
        some SentStatus.conflict409 ∧
      (GuildController.createSelfAssignableRole
          (GuildController.createSelfAssignableRole store g r).store g r).store =
        (GuildController.createSelfAssignableRole store g r).store) := by
  constructor
  · intro hsome
    unfold GuildController.createSelfAssignableRole
    cases hfind : GuildService.findSelfAssignableRole store g r.roleId with
    | none => rw [hfind] at hsome; simp at hsome
    | some row => simp
  · intro hzero
    have hnone := countRole_zero_find_none store g r.roleId hzero
    have hstep1 : GuildController.createSelfAssignableRole store g r =
        { sent := none, store := (g, r.roleId) :: store, events := [] } := by
      unfold GuildController.createSelfAssignableRole
      rw [hnone]
      rfl
    have hfind2 : GuildService.findSelfAssignableRole ((g, r.roleId) :: store)
        g r.roleId = some (g, r.roleId) := by
      unfold GuildService.findSelfAssignableRole
      apply List.find?_cons_of_pos
      simp
    have hstep2 : GuildController.createSelfAssignableRole
        ((g, r.roleId) :: store) g r =
        { sent := some SentStatus.conflict409, store := (g, r.roleId) :: store
          events := [] } := by
      unfold GuildController.createSelfAssignableRole
      rw [hfind2]
    refine ⟨by rw [hstep1], ?_, ?_, ?_⟩
    · rw [hstep1]
      unfold countRole at hzero ⊢
      rw [List.filter_cons]
      simp [hzero]
    · rw [hstep1]
      rw [hstep2]
    · rw [hstep1]
      rw [hstep2]

/-- Witness for the idempotent-reject theorem at a concrete empty store. -/
theorem createSelfAssignableRole_idempotent_reject_witness :
    (GuildController.createSelfAssignableRole [] "g1" { roleId := "r1" }).sent = none ∧
    countRole (GuildController.createSelfAssignableRole [] "g1" { roleId := "r1" }).store
      "g1" "r1" = 1 ∧
    (GuildController.createSelfAssignableRole
        (GuildController.createSelfAssignableRole [] "g1" { roleId := "r1" }).store
        "g1" { roleId := "r1" }).sent = some SentStatus.conflict409 := by
  have h := (createSelfAssignableRole_idempotent_reject [] "g1" { roleId := "r1" }).2
    (by decide)
  exact ⟨h.1, h.2.1, h.2.2.1⟩

/-- A warning from issuer 10 against user 30. -/
def warningRow1 : GuildUserWarningRow :=
  { id := 1, issuer := 10, reason := "spam", timestamp := 0, user := 30 }

/-- A warning from a different issuer (20) against the same user 30. -/
def warningRow2 : GuildUserWarningRow :=
  { id := 2, issuer := 20, reason := "abuse", timestamp := 1, user := 30 }

/-- A warning from issuer 10 against a different user 31. -/
def warningRow3 : GuildUserWarningRow :=
  { id := 3, issuer := 10, reason := "ads", timestamp := 2, user := 31 }

/-- A kick from issuer 10 against user 30. -/
def kickRow1 : GuildUserKickRow :=
  { id := 1, issuer := 10, reason := "spam", timestamp := 0, user := 30 }

/-- A kick from issuer 20 against user 31. -/
def kickRow2 : GuildUserKickRow :=
  { id := 2, issuer := 20, reason := "abuse", timestamp := 1, user := 31 }

/-- C4 counterexample: a table holding one warning from each of two different
issuers against the same target satisfies the (issuer, target)-pair uniqueness
the claim asserts the index enforces, yet violates the unique index actually
declared in the entity source, which covers the `user` join column alone — so
the index is not scoped to the issuer-target pair and two issuers may not each
hold a record against the same target. -/
theorem moderation_unique_index_not_pair_scoped :
    guildUserWarningPairAdmissible [warningRow1, warningRow2] ∧
    ¬ guildUserWarningAdmissible [warningRow1, warningRow2] := by
  constructor <;> decide

/-- C4 amended: for GuildUserWarning and GuildUserKick the storage layer
enforces at most one outstanding record per target user — the unique index
covers the target-user column alone — so any two rows of an admissible table
with the same target are the same row, regardless of issuer. -/
theorem moderation_unique_index_per_target_user
    (wrows : List GuildUserWarningRow) (krows : List GuildUserKickRow)
    (hw : guildUserWarningAdmissible wrows) (hk : guildUserKickAdmissible krows) :
    (∀ a ∈ wrows, ∀ b ∈ wrows, a.user = b.user → a = b) ∧
    (∀ a ∈ krows, ∀ b ∈ krows, a.user = b.user → a = b) :=
  ⟨fun a ha b hb hab => List.inj_on_of_nodup_map hw ha hb hab,
   fun a ha b hb hab => List.inj_on_of_nodup_map hk ha hb hab⟩

/-- Witness for the per-target uniqueness theorem at concrete admissible
tables: it forces the two distinct warning rows (and kick rows) to have
distinct targets. -/
theorem moderation_unique_index_per_target_user_witness :
    warningRow1.user ≠ warningRow3.user ∧ kickRow1.user ≠ kickRow2.user := by
  have h := moderation_unique_index_per_target_user [warningRow1, warningRow3]
    [kickRow1, kickRow2] (by decide) (by decide)
  constructor
  · intro heq
    have hrows := h.1 warningRow1 (by simp) warningRow3 (by simp) heq
    exact absurd hrows (by decide)
  · intro heq
    have hrows := h.2 kickRow1 (by simp) kickRow2 (by simp) heq
    exact absurd hrows (by decide)

/-- C5: a lookup of an absent guild never throws: the controller sends 404
exactly when the service reports absence, and returns the full guild with no
explicit error status when it exists. -/
theorem findById_maps_absence_to_404 (db : List Guild) (id : GuildId) :
    (GuildService.findById db id = none →
      GuildController.findById db id =
        { sent := some SentStatus.notFound404, body := none }) ∧
    (∀ g, GuildService.findById db id = some g →
      GuildController.findById db id = { sent := none, body := some g }) := by
  constructor
  · intro h
    unfold GuildController.findById
    rw [h]
    rfl
  · intro g h
    unfold GuildController.findById
    rw [h]
    rfl

/-- A concrete guild for the findById witness. -/
def guild0 : Guild := { id := "g1" }

/-- Witness for the 404 mapping at a concrete empty and non-empty database. -/
theorem findById_maps_absence_to_404_witness :
    GuildController.findById [] "g1" =
      { sent := some SentStatus.notFound404, body := none } ∧
    GuildController.findById [guild0] "g1" = { sent := none, body := some guild0 } :=
  ⟨(findById_maps_absence_to_404 [] "g1").1 rfl,
   (findById_maps_absence_to_404 [guild0] "g1").2 guild0 (by decide)⟩

/-- A concrete referral snapshot that already carries a creation date (5). -/
def referralSnap0 : ReferralObj :=
  { dateCreated := some 5, guildId := some "g1", id := some 1234,
    inviteUrl := some "discord.gg", joinCount := some 3, userId := some "u1" }

/-- C6 counterexample: constructing a Referral from a snapshot does not copy
all of its fields — at construction time 7 the snapshot's dateCreated (5) is
overwritten, so the constructed instance is not field-equal to the
snapshot. -/
theorem referral_construct_not_field_copy :
    Referral.construct (some referralSnap0) 7 ≠ referralSnap0 := by decide

/-- C6 amended: the GuildUserWarning and GuildUserKick constructors copy all
fields of the supplied snapshot (so constructing twice from the same snapshot
yields field-equal instances); the Referral constructor copies every field
except dateCreated, which it always overwrites with the construction time, so
two Referral constructions from the same snapshot are field-equal only when
made at the same instant. -/
theorem entity_constructors_copy_fields
    (w : GuildUserWarningObj) (k : GuildUserKickObj) (s : ReferralObj) (now : Nat) :
    GuildUserWarning.construct (some w) = w ∧
    GuildUserKick.construct (some k) = k ∧
    (Referral.construct (some s) now).guildId = s.guildId ∧
    (Referral.construct (some s) now).id = s.id ∧
    (Referral.construct (some s) now).inviteUrl = s.inviteUrl ∧
    (Referral.construct (some s) now).joinCount = s.joinCount ∧
    (Referral.construct (some s) now).userId = s.userId ∧
    (Referral.construct (some s) now).dateCreated = some now :=
  ⟨rfl, rfl, rfl, rfl, rfl, rfl, rfl, rfl⟩

/-- C7 counterexample: the snapshot supplies dateCreated = 5, yet the instance
constructed from it at time 7 carries dateCreated = 7 — the supplied value is
not preserved. -/
theorem referral_dateCreated_not_preserved :
    referralSnap0.dateCreated = some 5 ∧
    (Referral.construct (some referralSnap0) 7).dateCreated = some 7 ∧
    ¬ (Referral.construct (some referralSnap0) 7).dateCreated =
        referralSnap0.dateCreated := by
  refine ⟨rfl, rfl, by decide⟩

/-- C7 amended: the Referral constructor stamps dateCreated with the
construction time unconditionally — whether or not the snapshot carries one,
and also when no snapshot is supplied. -/
theorem referral_construct_always_stamps (referral : Option ReferralObj) (now : Nat) :
    (Referral.construct referral now).dateCreated = some now := by
  cases referral <;> rfl

/-- C8: deleting playlist songs by user id removes all and only the songs of
guild `g` requested by `u`, in one pure operation: a song survives exactly
when it was stored and is not a `(g, u)` song, the surviving list is a
sublist of the original (nothing added, order kept, so songs of other users
or guilds are unchanged), and the endpoint emits no events. -/
theorem deleteSongsByUserId_all_and_only (songs : List Song) (g : GuildId)
    (u : UserId) :
    (∀ s : Song,
      s ∈ (GuildController.deleteSongsByUserId songs g u).1 ↔
        s ∈ songs ∧ ¬(s.guildId = g ∧ s.requestedBy = u)) ∧
    List.Sublist (GuildController.deleteSongsByUserId songs g u).1 songs ∧
    (GuildController.deleteSongsByUserId songs g u).2 = [] := by
  refine ⟨?_, ?_, rfl⟩
  · intro s
    unfold GuildController.deleteSongsByUserId GuildService.deleteSongsByUserId
    rw [List.mem_filter]
    simp
    intro hmem
    tauto
  · unfold GuildController.deleteSongsByUserId GuildService.deleteSongsByUserId
    exact List.filter_sublist songs

/-- C9: `userHasPremium` returns false whenever the premium config block is
absent, either configured id is falsy, the primary guild is not in the client
cache, or the id is not a member of the primary guild; consequently the
bot-owner short-circuit to true is reached only for ids that are already
members of the primary guild. -/
theorem userHasPremium_guard_conditions (config : BotOptionalConfig)
    (id : UserId) (client : Client) :
    (config.premium = none → UserController.userHasPremium config id client = false) ∧
    (∀ p, config.premium = some p →
      (strFalsy p.premiumPatreonRoleId || strFalsy p.primaryGuildId) = true →
      UserController.userHasPremium config id client = false) ∧
    (∀ p, config.premium = some p →
      client.getGuild (p.primaryGuildId.getD "") = none →
      UserController.userHasPremium config id client = false) ∧
    (∀ p guild, config.premium = some p →
      client.getGuild (p.primaryGuildId.getD "") = some guild →
      guild.getMember id = none →
      UserController.userHasPremium config id client = false) ∧
    (UserController.userHasPremium config id client = true →
      ∃ p guild member, config.premium = some p ∧
        client.getGuild (p.primaryGuildId.getD "") = some guild ∧
        guild.getMember id = some member) := by
  refine ⟨?_, ?_, ?_, ?_, ?_⟩
  · intro h
    unfold UserController.userHasPremium
    rw [h]
  · intro p hp hf
    unfold UserController.userHasPremium
    rw [hp]
    simp [hf]
  · intro p hp hg
    unfold UserController.userHasPremium
    rw [hp]
    by_cases hf : (strFalsy p.premiumPatreonRoleId || strFalsy p.primaryGuildId) = true
    · simp [hf]
    · rw [Bool.not_eq_true] at hf
      simp [hf, hg]
  · intro p guild hp hg hm
    unfold UserController.userHasPremium
    rw [hp]
    by_cases hf : (strFalsy p.premiumPatreonRoleId || strFalsy p.primaryGuildId) = true
    · simp [hf]
    · rw [Bool.not_eq_true] at hf
      simp [hf, hg, hm]
  · intro htrue
    unfold UserController.userHasPremium at htrue
    cases hp : config.premium with
    | none =>
        rw [hp] at htrue
        simp at htrue
    | some p =>
        rw [hp] at htrue
        by_cases hf : (strFalsy p.premiumPatreonRoleId || strFalsy p.primaryGuildId) = true
        · simp [hf] at htrue
        · rw [Bool.not_eq_true] at hf
          simp only [hf, Bool.false_eq_true, if_false] at htrue
          cases hg : client.getGuild (p.primaryGuildId.getD "") with
          | none =>
              rw [hg] at htrue
              simp at htrue
          | some guild =>
              rw [hg] at htrue
              simp only [] at htrue
              cases hm : guild.getMember id with
              | none =>
                  rw [hm] at htrue
                  simp at htrue
              | some member =>
                  exact ⟨p, guild, member, rfl, hg, hm⟩

/-- A configuration with no premium block. -/
def botConfig0 : BotOptionalConfig := { premium := none }

/-- An empty client cache. -/
def client0 : Client := { guilds := [], owners := [] }

/-- Witness for the premium guard theorem: with no premium block configured,
the check returns false. -/
theorem userHasPremium_guard_conditions_witness :
    UserController.userHasPremium botConfig0 "u1" client0 = false :=
  (userHasPremium_guard_conditions botConfig0 "u1" client0).1 rfl

/-- C10: for every content of config.json (present with any credentials, or
absent) and all inputs, getDiscordAccessToken builds the same constant
Authorization header `Basic Og==` — the base64 of `:`, the join of the two
always-empty const credentials — because every path through the config-loading
try block throws (the require may fail, and the reassignment of a const
binding always does) and the catch only logs. -/
theorem getDiscordAccessToken_constant_auth_header (configJson : Option BotConfig)
    (code : String) (redirect : String) :
    (AuthenticationService.getDiscordAccessToken configJson code redirect).authorizationHeader
      = "Basic Og==" ∧
    loadAuthCredentials configJson = ("", "") := by
  cases configJson <;> exact ⟨rfl, rfl⟩

/-- A song in the same guild requested by a different user. -/
def song1 : Song :=
  { id := 2, guildId := "g1", requestedBy := "u2", position := 1 }

/-- Witness for the playlist deletion theorem at a concrete two-song store:
the (g1, u1) song is removed and the other user's song survives. -/
theorem deleteSongsByUserId_all_and_only_witness :
    song1 ∈ (GuildController.deleteSongsByUserId [song0, song1] "g1" "u1").1 ∧
    song0 ∉ (GuildController.deleteSongsByUserId [song0, song1] "g1" "u1").1 := by
  have h := deleteSongsByUserId_all_and_only [song0, song1] "g1" "u1"
  constructor
  · exact (h.1 song1).mpr ⟨by simp, by decide⟩
  · intro hmem
    exact ((h.1 song0).mp hmem).2 ⟨rfl, rfl⟩
